import Mathlib

/-!
Shallow embedding of `milestone1-weather-client.py`, a client that resolves a
city name to coordinates through a geocoding endpoint (`get_coordinates`) and
reads current weather for a coordinate pair through a forecast endpoint
(`get_current_weather`), over an HTTP session configured with a bounded retry
policy (`_create_session`).

The transport is mocked as a script: a list of per-attempt outcomes. A JSON
body is `Option Json`, `none` standing for a body on which `response.json()`
raises `json.JSONDecodeError`.
-/

/-- JSON values, as produced by parsing a response body. -/
inductive Json where
  | null : Json
  | bool : Bool → Json
  | num : Rat → Json
  | str : String → Json
  | arr : List Json → Json
  | obj : List (String × Json) → Json

/-- Python `dict.get(key)` on a JSON object's field list (first binding wins);
`none` models Python `None` for a missing key. -/
def pyGet (fs : List (String × Json)) (k : String) : Option Json :=
  List.lookup k fs

/-- Python truthiness of a JSON value, as used by `if not data.get("results")`:
`None`, `False`, zero, and empty containers are falsy. -/
def pyTruthy : Json → Bool
  | .null => false
  | .bool b => b
  | .num q => q != 0
  | .str s => s != ""
  | .arr xs => !xs.isEmpty
  | .obj fs => !fs.isEmpty

/-- An HTTP response as seen through `requests`: status code, reason phrase,
final URL, and the parsed JSON body (`none` when parsing fails). -/
structure HttpResponse where
  status : Nat
  reason : String
  url : String
  body : Option Json

/-- Property `response.ok` of `requests`: true iff the status code is below
400. -/
def HttpResponse.ok (r : HttpResponse) : Bool := decide (r.status < 400)

/-- The outcome of one attempt on the wire: a response arrived, the attempt
timed out (`requests.exceptions.Timeout`), or the connection failed
(`requests.exceptions.ConnectionError`). -/
inductive AttemptOutcome where
  | response : HttpResponse → AttemptOutcome
  | timeout : AttemptOutcome
  | connError : AttemptOutcome

/-- The list `status_forcelist=[429, 500, 502, 503, 504]` from
`_create_session`. -/
def status_forcelist : List Nat := [429, 500, 502, 503, 504]

/-- The bound `total=3` from the `Retry` configuration in `_create_session`. -/
def retry_total : Nat := 3

/-- An attempt is retried when its HTTP status is in the forcelist, or when it
failed at the connection level (timeout or connection error). -/
def retryable : AttemptOutcome → Bool
  | .response r => status_forcelist.contains r.status
  | .timeout => true
  | .connError => true

/-- Modelled from the spec: the retry loop of the session configured by
`_create_session` is executed by the `urllib3`/`requests` libraries, which are
not part of this repository; per the spec (§4.1) a retryable failure is
re-attempted while retries remain and the last observed failure is surfaced
as the final outcome. The mocked transport supplies one scripted outcome per
attempt; an exhausted script behaves as a connection failure. Returns the
number of attempts made and the final outcome. -/
def runAttempts : Nat → List AttemptOutcome → Nat × AttemptOutcome
  | _, [] => (1, .connError)
  | retriesLeft, o :: rest =>
    if retryable o then
      match retriesLeft with
      | 0 => (1, o)
      | n + 1 => ((runAttempts n rest).1 + 1, (runAttempts n rest).2)
    else
      (1, o)

/-- A call to `session.get` through the adapter mounted by `_create_session`:
up to `retry_total` retries on retryable outcomes. -/
def sessionGet (script : List AttemptOutcome) : Nat × AttemptOutcome :=
  runAttempts retry_total script

/-- Per `WeatherAPIError.__init__`: a message, an optional HTTP status code,
and an optional URL. -/
structure WeatherAPIError where
  message : String
  status_code : Option Nat
  url : Option String

/-- An instance of `LocationNotFoundError(location)`: a `WeatherAPIError`
whose message is built from the location string, constructed with no status
code and no URL. -/
def locationNotFoundError (location : String) : WeatherAPIError :=
  ⟨"Weather location not found: " ++ location, none, none⟩

/-- The dictionary returned by `get_coordinates`. Field values are kept as the
JSON values found in the payload, exactly as the Python dict holds them. -/
structure CoordRecord where
  latitude : Json
  longitude : Json
  name : Json
  country : Json
  timezone : Json
  elevation : Json

/-- Outcome of `get_coordinates`: the returned dictionary, a raised
`LocationNotFoundError`, a raised plain `WeatherAPIError`, or an exception
that no `except` clause of the function catches (e.g. `KeyError` from
subscripting a missing key). -/
inductive GeoResult where
  | ok : CoordRecord → GeoResult
  | locationNotFound : WeatherAPIError → GeoResult
  | apiError : WeatherAPIError → GeoResult
  | uncaught : String → GeoResult

def GeoResult.isOk : GeoResult → Bool
  | .ok _ => true
  | _ => false

def GeoResult.isLocationNotFound : GeoResult → Bool
  | .locationNotFound _ => true
  | _ => false

def GeoResult.isApiError : GeoResult → Bool
  | .apiError _ => true
  | _ => false

def GeoResult.isUncaught : GeoResult → Bool
  | .uncaught _ => true
  | _ => false

def geocoding_url : String := "https://geocoding-api.open-meteo.com/v1/search"

def weather_url : String := "https://api.open-meteo.com/v1/forecast"

/-- The query parameters built by `get_coordinates`: `name`, `count=1`,
`language="en"`, `format="json"`, and `country` added only when the `country`
string is truthy, i.e. non-empty. -/
def geoParams (city country : String) : List (String × Json) :=
  let base := [("name", Json.str city), ("count", Json.num 1),
               ("language", Json.str "en"), ("format", Json.str "json")]
  if country = "" then base else base ++ [("country", Json.str country)]

/-- The first result `data["results"][0]` projected into the dictionary that
`get_coordinates` returns: `latitude`,
`longitude` and `name` are read by subscript (a missing key raises `KeyError`,
in that order), the rest by `.get` with defaults `""`, `""` and `0`. Python
raises `TypeError` when subscripting a non-dict first element. -/
def projectLocation : Json → GeoResult
  | .obj lf =>
    match pyGet lf "latitude" with
    | none => .uncaught "KeyError: latitude"
    | some lat =>
      match pyGet lf "longitude" with
      | none => .uncaught "KeyError: longitude"
      | some lon =>
        match pyGet lf "name" with
        | none => .uncaught "KeyError: name"
        | some nm =>
          .ok { latitude := lat, longitude := lon, name := nm,
                country := (pyGet lf "country").getD (Json.str ""),
                timezone := (pyGet lf "timezone").getD (Json.str ""),
                elevation := (pyGet lf "elevation").getD (Json.num 0) }
  | _ => .uncaught "TypeError: indices must be integers"

/-- The body of `get_coordinates` after a response arrived: the `response.ok`
check, then JSON parsing (`json.JSONDecodeError` is caught by the last
`except` clause of the function), then the `results` truthiness check, then
projection of the first result. A non-dict payload makes `data.get` raise an
uncaught `AttributeError`. -/
def handleGeoResponse (city country : String) (resp : HttpResponse) : GeoResult :=
  if resp.ok then
    match resp.body with
    | none => .apiError ⟨"Invalid JSON response", none, some resp.url⟩
    | some data =>
      match data with
      | .obj fs =>
        match pyGet fs "results" with
        | none => .locationNotFound (locationNotFoundError (city ++ ", " ++ country))
        | some v =>
          if pyTruthy v then
            match v with
            | .arr (first :: _) => projectLocation first
            | .arr [] => .uncaught "IndexError"
            | _ => .uncaught "TypeError: indices must be integers"
          else
            .locationNotFound (locationNotFoundError (city ++ ", " ++ country))
      | _ => .uncaught "AttributeError: get"
  else
    .apiError ⟨"Geocoding API request failed: " ++ resp.reason,
               some resp.status, some resp.url⟩

/-- A full run of `get_coordinates`: the request it issues (URL and query
parameters), the number of transport attempts made, and the outcome. -/
structure GeoRun where
  requestUrl : String
  requestParams : List (String × Json)
  attempts : Nat
  result : GeoResult

/-- A run of `WeatherClient.get_coordinates(city, country)` against a mocked
transport script. Timeout and connection failures surfacing from the session
are caught and re-raised as `WeatherAPIError` with the geocoding URL. -/
def get_coordinates (city country : String) (script : List AttemptOutcome) : GeoRun :=
  { requestUrl := geocoding_url,
    requestParams := geoParams city country,
    attempts := (sessionGet script).1,
    result :=
      match (sessionGet script).2 with
      | .timeout => .apiError ⟨"Request timed out", none, some geocoding_url⟩
      | .connError => .apiError ⟨"Connection failed", none, some geocoding_url⟩
      | .response r => handleGeoResponse city country r }

/-- The dictionary returned by `get_current_weather`: each field is the value
`current.get(...)` produced, `none` modelling Python `None` for a missing
key. -/
structure WeatherReading where
  temperature_c : Option Json
  windspeed_kmh : Option Json
  observation_time : Option Json
  weather_code : Option Json

/-- Outcome of `get_current_weather`: the returned dictionary, a raised
`WeatherAPIError`, or an exception no `except` clause catches. -/
inductive WeatherResult where
  | ok : WeatherReading → WeatherResult
  | apiError : WeatherAPIError → WeatherResult
  | uncaught : String → WeatherResult

def WeatherResult.isOk : WeatherResult → Bool
  | .ok _ => true
  | _ => false

def WeatherResult.isApiError : WeatherResult → Bool
  | .apiError _ => true
  | _ => false

/-- The query parameters built by `get_current_weather`. -/
def weatherParams (latitude longitude : Rat) : List (String × Json) :=
  [("latitude", Json.num latitude), ("longitude", Json.num longitude),
   ("current_weather", Json.str "true"), ("timezone", Json.str "auto")]

/-- The body of `get_current_weather` after a response arrived: the
`response.ok` check, JSON parsing, then
`current = data.get("current_weather", {})` and four independent
`current.get(...)` projections. -/
def handleWeatherResponse (resp : HttpResponse) : WeatherResult :=
  if resp.ok then
    match resp.body with
    | none => .apiError ⟨"Invalid weather JSON response", none, some resp.url⟩
    | some data =>
      match data with
      | .obj fs =>
        match (pyGet fs "current_weather").getD (Json.obj []) with
        | .obj cf =>
          .ok { temperature_c := pyGet cf "temperature",
                windspeed_kmh := pyGet cf "windspeed",
                observation_time := pyGet cf "time",
                weather_code := pyGet cf "weathercode" }
        | _ => .uncaught "AttributeError: get"
      | _ => .uncaught "AttributeError: get"
  else
    .apiError ⟨"Weather API request failed: " ++ resp.reason,
               some resp.status, some resp.url⟩

/-- A full run of `get_current_weather`: the request it issues, the number of
transport attempts made, and the outcome. -/
structure WeatherRun where
  requestUrl : String
  requestParams : List (String × Json)
  attempts : Nat
  result : WeatherResult

/-- A run of `WeatherClient.get_current_weather(latitude, longitude)` against
a mocked transport script. The function performs no validation of its
arguments: the parameters are built and the request issued for every input
pair. -/
def get_current_weather (latitude longitude : Rat) (script : List AttemptOutcome) : WeatherRun :=
  { requestUrl := weather_url,
    requestParams := weatherParams latitude longitude,
    attempts := (sessionGet script).1,
    result :=
      match (sessionGet script).2 with
      | .timeout => .apiError ⟨"Weather request timed out", none, some weather_url⟩
      | .connError => .apiError ⟨"Weather connection failed", none, some weather_url⟩
      | .response r => handleWeatherResponse r }

/-- The geocoding body used in the retry-recovery scenario: one result for
Paris. -/
def c1Body : Json :=
  Json.obj [("results", Json.arr [Json.obj
    [("latitude", Json.num 48), ("longitude", Json.num 2),
     ("name", Json.str "Paris"), ("country", Json.str "France")]])]

/-- A transport script that fails with status 503 on the first two attempts
and succeeds on the third. -/
def c1Script : List AttemptOutcome :=
  [AttemptOutcome.response ⟨503, "Service Unavailable", "https://geocoding-api.open-meteo.com/v1/search?name=Paris", none⟩,
   AttemptOutcome.response ⟨503, "Service Unavailable", "https://geocoding-api.open-meteo.com/v1/search?name=Paris", none⟩,
   AttemptOutcome.response ⟨200, "OK", "https://geocoding-api.open-meteo.com/v1/search?name=Paris", some c1Body⟩]

/-- A successful geocoding response whose single result lacks the `latitude`
key. -/
def c5Script : List AttemptOutcome :=
  [AttemptOutcome.response ⟨200, "OK", "https://geocoding-api.open-meteo.com/v1/search?name=Paris",
    some (Json.obj [("results", Json.arr [Json.obj
      [("longitude", Json.num 2), ("name", Json.str "Paris")]])])⟩]

/-- What the structured-error portion of the spec holds of a `get_coordinates`
outcome once corrected to the code: a raised plain `WeatherAPIError` always
carries the URL of the failed request, while a raised `LocationNotFoundError`
carries the city and country in its message but no status code and no URL. -/
def geoErrSpec (city country : String) : GeoResult → Prop
  | .apiError e => e.url.isSome = true
  | .locationNotFound e =>
      e.message = "Weather location not found: " ++ (city ++ ", " ++ country)
      ∧ e.status_code = none ∧ e.url = none
  | _ => True

/-- The same for `get_current_weather`, which raises no
`LocationNotFoundError`. -/
def weatherErrSpec : WeatherResult → Prop
  | .apiError e => e.url.isSome = true
  | _ => True

theorem runAttempts_fst_le (n : Nat) (s : List AttemptOutcome) :
    (runAttempts n s).1 ≤ n + 1 := by
  induction n generalizing s with
  | zero =>
    cases s with
    | nil => simp [runAttempts]
    | cons o rest => simp only [runAttempts]; split <;> simp
  | succ k ih =>
    cases s with
    | nil => simp [runAttempts]
    | cons o rest =>
      simp only [runAttempts]
      split
      · have := ih rest
        simp only []
        omega
      · omega

theorem ok_not_retryable {s : Nat} (h : s < 400) :
    status_forcelist.contains s = false := by
  simp [status_forcelist, List.contains]
  omega

theorem sessionGet_head_not_retryable (r : HttpResponse) (rest : List AttemptOutcome)
    (h : status_forcelist.contains r.status = false) :
    sessionGet (AttemptOutcome.response r :: rest) = (1, AttemptOutcome.response r) := by
  have hr : retryable (AttemptOutcome.response r) = false := h
  simp [sessionGet, retry_total, runAttempts, hr]

/-- C1: the transport used by resolve/read retries on HTTP statuses in the
forcelist and on connection-level failures, with at most 3 retries, so no run
ever makes more than 4 attempts; a run whose first two attempts fail with
status 503 and whose third succeeds ends with `get_coordinates` returning the
successful result after exactly 3 attempts. -/
theorem resolve_retry_bound_and_recovery :
    (∀ city country script, (get_coordinates city country script).attempts ≤ 4)
    ∧ (get_coordinates "Paris" "" c1Script).attempts = 3
    ∧ (get_coordinates "Paris" "" c1Script).result = GeoResult.ok
        { latitude := Json.num 48, longitude := Json.num 2, name := Json.str "Paris",
          country := Json.str "France", timezone := Json.str "", elevation := Json.num 0 } := by
  refine ⟨fun city country script => ?_, rfl, rfl⟩
  have h := runAttempts_fst_le retry_total script
  simpa [get_coordinates, sessionGet, retry_total] using h

/-- C2: a response with a non-retryable HTTP status (not in the forcelist and
not a success, e.g. 404) makes both `get_coordinates` and
`get_current_weather` fail on the first attempt, with no retry, raising a
`WeatherAPIError` that carries that status code and the response URL. -/
theorem nonretryable_status_fails_first_attempt
    (city country : String) (lat lon : Rat)
    (r : HttpResponse) (rest : List AttemptOutcome)
    (hnr : status_forcelist.contains r.status = false)
    (hbad : 400 ≤ r.status) :
    ((get_coordinates city country (AttemptOutcome.response r :: rest)).attempts = 1
      ∧ (get_coordinates city country (AttemptOutcome.response r :: rest)).result
          = GeoResult.apiError
              ⟨"Geocoding API request failed: " ++ r.reason, some r.status, some r.url⟩)
    ∧ ((get_current_weather lat lon (AttemptOutcome.response r :: rest)).attempts = 1
      ∧ (get_current_weather lat lon (AttemptOutcome.response r :: rest)).result
          = WeatherResult.apiError
              ⟨"Weather API request failed: " ++ r.reason, some r.status, some r.url⟩) := by
  have hs := sessionGet_head_not_retryable r rest hnr
  have hok : r.ok = false := by
    simp only [HttpResponse.ok, decide_eq_false_iff_not]
    omega
  exact ⟨⟨by simp [get_coordinates, hs],
          by simp [get_coordinates, hs, handleGeoResponse, hok]⟩,
         ⟨by simp [get_current_weather, hs],
          by simp [get_current_weather, hs, handleWeatherResponse, hok]⟩⟩

/-- Witness for C2 at a concrete 404 response. -/
theorem nonretryable_status_fails_first_attempt_witness :
    ((get_coordinates "Paris" "FR" [AttemptOutcome.response ⟨404, "Not Found", "u", none⟩]).attempts = 1
      ∧ (get_coordinates "Paris" "FR" [AttemptOutcome.response ⟨404, "Not Found", "u", none⟩]).result
          = GeoResult.apiError ⟨"Geocoding API request failed: Not Found", some 404, some "u"⟩)
    ∧ ((get_current_weather 48 2 [AttemptOutcome.response ⟨404, "Not Found", "u", none⟩]).attempts = 1
      ∧ (get_current_weather 48 2 [AttemptOutcome.response ⟨404, "Not Found", "u", none⟩]).result
          = WeatherResult.apiError ⟨"Weather API request failed: Not Found", some 404, some "u"⟩) :=
  nonretryable_status_fails_first_attempt "Paris" "FR" 48 2
    ⟨404, "Not Found", "u", none⟩ [] (by decide) (by decide)

/-- C3: for a successful geocoding response whose results list is non-empty
and whose first element carries `latitude`, `longitude` and `name`,
`get_coordinates` returns a record whose latitude, longitude and name equal
the first element's, with `country` defaulting to `""`, `timezone` to `""`
and `elevation` to `0` when absent. -/
theorem resolve_projects_first_result
    (city country reason url : String) (status : Nat)
    (fs lf : List (String × Json)) (rs : List Json) (lat lon nm : Json)
    (hok : status < 400)
    (hres : pyGet fs "results" = some (Json.arr (Json.obj lf :: rs)))
    (hlat : pyGet lf "latitude" = some lat)
    (hlon : pyGet lf "longitude" = some lon)
    (hnm : pyGet lf "name" = some nm) :
    (get_coordinates city country
        [AttemptOutcome.response ⟨status, reason, url, some (Json.obj fs)⟩]).result
      = GeoResult.ok
          { latitude := lat, longitude := lon, name := nm,
            country := (pyGet lf "country").getD (Json.str ""),
            timezone := (pyGet lf "timezone").getD (Json.str ""),
            elevation := (pyGet lf "elevation").getD (Json.num 0) } := by
  have hs := sessionGet_head_not_retryable ⟨status, reason, url, some (Json.obj fs)⟩ []
    (ok_not_retryable hok)
  have hokb : HttpResponse.ok ⟨status, reason, url, some (Json.obj fs)⟩ = true := by
    simpa [HttpResponse.ok] using hok
  simp [get_coordinates, hs, handleGeoResponse, hokb, hres, pyTruthy,
    projectLocation, hlat, hlon, hnm]

/-- Witness for C3: a single Paris result carrying only the required fields,
so all three defaults apply. -/
theorem resolve_projects_first_result_witness :
    (get_coordinates "Paris" "FR"
        [AttemptOutcome.response ⟨200, "OK", "u",
          some (Json.obj [("results", Json.arr [Json.obj
            [("latitude", Json.num 48), ("longitude", Json.num 2),
             ("name", Json.str "Paris")]])])⟩]).result
      = GeoResult.ok
          { latitude := Json.num 48, longitude := Json.num 2, name := Json.str "Paris",
            country := Json.str "", timezone := Json.str "", elevation := Json.num 0 } :=
  resolve_projects_first_result "Paris" "FR" "OK" "u" 200
    [("results", Json.arr [Json.obj
      [("latitude", Json.num 48), ("longitude", Json.num 2), ("name", Json.str "Paris")]])]
    [("latitude", Json.num 48), ("longitude", Json.num 2), ("name", Json.str "Paris")]
    [] (Json.num 48) (Json.num 2) (Json.str "Paris")
    (by decide) rfl rfl rfl rfl

/-- C4: for a successful geocoding response in which the results list is
empty or absent, `get_coordinates` raises `LocationNotFoundError` whose
message carries the original city and country arguments, with no transport
error: the outcome is not a plain `WeatherAPIError`. -/
theorem resolve_empty_results_location_not_found
    (city country reason url : String) (status : Nat) (fs : List (String × Json))
    (hok : status < 400)
    (hres : pyGet fs "results" = none ∨ pyGet fs "results" = some (Json.arr [])) :
    (get_coordinates city country
        [AttemptOutcome.response ⟨status, reason, url, some (Json.obj fs)⟩]).result
      = GeoResult.locationNotFound
          ⟨"Weather location not found: " ++ (city ++ ", " ++ country), none, none⟩
    ∧ ((get_coordinates city country
        [AttemptOutcome.response ⟨status, reason, url, some (Json.obj fs)⟩]).result).isApiError
      = false := by
  have hs := sessionGet_head_not_retryable ⟨status, reason, url, some (Json.obj fs)⟩ []
    (ok_not_retryable hok)
  have hokb : HttpResponse.ok ⟨status, reason, url, some (Json.obj fs)⟩ = true := by
    simpa [HttpResponse.ok] using hok
  rcases hres with h | h <;>
    simp [get_coordinates, hs, handleGeoResponse, hokb, h, pyTruthy,
      locationNotFoundError, GeoResult.isApiError]

/-- Witness for C4 at a concrete empty results list. -/
theorem resolve_empty_results_location_not_found_witness :
    (get_coordinates "Atlantis" "XX"
        [AttemptOutcome.response ⟨200, "OK", "u",
          some (Json.obj [("results", Json.arr [])])⟩]).result
      = GeoResult.locationNotFound
          ⟨"Weather location not found: " ++ ("Atlantis" ++ ", " ++ "XX"), none, none⟩
    ∧ ((get_coordinates "Atlantis" "XX"
        [AttemptOutcome.response ⟨200, "OK", "u",
          some (Json.obj [("results", Json.arr [])])⟩]).result).isApiError = false :=
  resolve_empty_results_location_not_found "Atlantis" "XX" "OK" "u" 200
    [("results", Json.arr [])] (by decide) (Or.inr rfl)

/-- C5 counterexample: on a successful geocoding response whose first result
lacks `latitude`, `get_coordinates` does not fail with a structured
`WeatherAPIError` (the InvalidResponse kind of the spec): it raises an
uncaught `KeyError`. -/
theorem resolve_missing_latitude_counterexample :
    (get_coordinates "Paris" "" c5Script).result = GeoResult.uncaught "KeyError: latitude"
    ∧ ((get_coordinates "Paris" "" c5Script).result).isApiError = false
    ∧ ((get_coordinates "Paris" "" c5Script).result).isLocationNotFound = false :=
  ⟨rfl, rfl, rfl⟩

/-- C5 amended: for every successful geocoding response whose first result
element lacks the `latitude` or the `longitude` field, `get_coordinates`
fails by raising an uncaught `KeyError` (not a structured `WeatherAPIError`),
and never returns a partially populated record. -/
theorem resolve_missing_coordinate_uncaught
    (city country reason url : String) (status : Nat)
    (fs lf : List (String × Json)) (rs : List Json)
    (hok : status < 400)
    (hres : pyGet fs "results" = some (Json.arr (Json.obj lf :: rs)))
    (hmiss : pyGet lf "latitude" = none ∨ pyGet lf "longitude" = none) :
    ((get_coordinates city country
        [AttemptOutcome.response ⟨status, reason, url, some (Json.obj fs)⟩]).result).isUncaught
      = true
    ∧ ((get_coordinates city country
        [AttemptOutcome.response ⟨status, reason, url, some (Json.obj fs)⟩]).result).isOk
      = false := by
  have hs := sessionGet_head_not_retryable ⟨status, reason, url, some (Json.obj fs)⟩ []
    (ok_not_retryable hok)
  have hokb : HttpResponse.ok ⟨status, reason, url, some (Json.obj fs)⟩ = true := by
    simpa [HttpResponse.ok] using hok
  rcases hmiss with h | h
  · simp [get_coordinates, hs, handleGeoResponse, hokb, hres, pyTruthy,
      projectLocation, h, GeoResult.isUncaught, GeoResult.isOk]
  · rcases hlat : pyGet lf "latitude" with _ | lat <;>
      simp [get_coordinates, hs, handleGeoResponse, hokb, hres, pyTruthy,
        projectLocation, hlat, h, GeoResult.isUncaught, GeoResult.isOk]

/-- Witness for the amended C5: a first result that lacks `longitude`. -/
theorem resolve_missing_coordinate_uncaught_witness :
    ((get_coordinates "Paris" "FR"
        [AttemptOutcome.response ⟨200, "OK", "u",
          some (Json.obj [("results", Json.arr [Json.obj
            [("latitude", Json.num 48), ("name", Json.str "Paris")]])])⟩]).result).isUncaught
      = true
    ∧ ((get_coordinates "Paris" "FR"
        [AttemptOutcome.response ⟨200, "OK", "u",
          some (Json.obj [("results", Json.arr [Json.obj
            [("latitude", Json.num 48), ("name", Json.str "Paris")]])])⟩]).result).isOk
      = false :=
  resolve_missing_coordinate_uncaught "Paris" "FR" "OK" "u" 200
    [("results", Json.arr [Json.obj [("latitude", Json.num 48), ("name", Json.str "Paris")]])]
    [("latitude", Json.num 48), ("name", Json.str "Paris")]
    [] (by decide) rfl (Or.inr rfl)

/-- C6: a response with a successful status whose body is not parseable JSON
makes `get_coordinates` fail with the structured `WeatherAPIError` whose
message is "Invalid JSON response" and which carries the response URL; in
particular the outcome is not a `LocationNotFoundError`. -/
theorem resolve_invalid_json
    (city country reason url : String) (status : Nat)
    (hok : status < 400) :
    (get_coordinates city country
        [AttemptOutcome.response ⟨status, reason, url, none⟩]).result
      = GeoResult.apiError ⟨"Invalid JSON response", none, some url⟩
    ∧ ((get_coordinates city country
        [AttemptOutcome.response ⟨status, reason, url, none⟩]).result).isLocationNotFound
      = false := by
  have hs := sessionGet_head_not_retryable ⟨status, reason, url, none⟩ []
    (ok_not_retryable hok)
  have hokb : HttpResponse.ok ⟨status, reason, url, none⟩ = true := by
    simpa [HttpResponse.ok] using hok
  simp [get_coordinates, hs, handleGeoResponse, hokb, GeoResult.isLocationNotFound]

/-- Witness for C6 at a concrete unparseable 200 response. -/
theorem resolve_invalid_json_witness :
    (get_coordinates "Paris" "" [AttemptOutcome.response ⟨200, "OK", "u", none⟩]).result
      = GeoResult.apiError ⟨"Invalid JSON response", none, some "u"⟩
    ∧ ((get_coordinates "Paris" ""
        [AttemptOutcome.response ⟨200, "OK", "u", none⟩]).result).isLocationNotFound = false :=
  resolve_invalid_json "Paris" "" "OK" "u" 200 (by decide)

/-- C7: for a successful forecast response that parses as JSON but lacks the
`current_weather` sub-object, `get_current_weather` returns a reading with
all four fields absent rather than an error; and when `current_weather` is
present, each of the four fields is extracted independently by its own `.get`,
so a sub-object carrying only `temperature` yields a reading with temperature
set and the other three fields absent. -/
theorem read_current_weather_fields
    (lat lon : Rat) (reason url : String) (status : Nat) (fs : List (String × Json))
    (hok : status < 400) :
    (pyGet fs "current_weather" = none →
      (get_current_weather lat lon
          [AttemptOutcome.response ⟨status, reason, url, some (Json.obj fs)⟩]).result
        = WeatherResult.ok ⟨none, none, none, none⟩)
    ∧ (∀ cf : List (String × Json),
        pyGet fs "current_weather" = some (Json.obj cf) →
        (get_current_weather lat lon
            [AttemptOutcome.response ⟨status, reason, url, some (Json.obj fs)⟩]).result
          = WeatherResult.ok
              ⟨pyGet cf "temperature", pyGet cf "windspeed",
               pyGet cf "time", pyGet cf "weathercode"⟩) := by
  have hs := sessionGet_head_not_retryable ⟨status, reason, url, some (Json.obj fs)⟩ []
    (ok_not_retryable hok)
  have hokb : HttpResponse.ok ⟨status, reason, url, some (Json.obj fs)⟩ = true := by
    simpa [HttpResponse.ok] using hok
  constructor
  · intro h
    simp only [get_current_weather, hs, handleWeatherResponse, hokb, eq_self_iff_true, if_true]
    rw [h]
    rfl
  · intro cf h
    simp [get_current_weather, hs, handleWeatherResponse, hokb, h]

/-- Witness for C7: an empty payload gives an all-absent reading; a payload
whose `current_weather` carries only `temperature` sets only that field. -/
theorem read_current_weather_fields_witness :
    (get_current_weather 48 2
        [AttemptOutcome.response ⟨200, "OK", "u", some (Json.obj [])⟩]).result
      = WeatherResult.ok ⟨none, none, none, none⟩
    ∧ (get_current_weather 48 2
        [AttemptOutcome.response ⟨200, "OK", "u",
          some (Json.obj [("current_weather",
            Json.obj [("temperature", Json.num 21)])])⟩]).result
      = WeatherResult.ok ⟨some (Json.num 21), none, none, none⟩ :=
  ⟨(read_current_weather_fields 48 2 "OK" "u" 200 [] (by decide)).1 rfl,
   (read_current_weather_fields 48 2 "OK" "u" 200
      [("current_weather", Json.obj [("temperature", Json.num 21)])] (by decide)).2
     [("temperature", Json.num 21)] rfl⟩

/-- C8: the query parameters issued by `get_coordinates` always carry `name`,
`count=1`, `language="en"` and `format="json"`, and carry a `country` key
exactly when the country argument is non-empty; in particular
`("Paris", "FR")` yields `country=FR` while `("Paris", "")` has no `country`
key at all. -/
theorem resolve_query_params (city country : String) (script : List AttemptOutcome) :
    (get_coordinates city country script).requestParams = geoParams city country
    ∧ pyGet (geoParams city country) "name" = some (Json.str city)
    ∧ pyGet (geoParams city country) "count" = some (Json.num 1)
    ∧ pyGet (geoParams city country) "language" = some (Json.str "en")
    ∧ pyGet (geoParams city country) "format" = some (Json.str "json")
    ∧ pyGet (geoParams city country) "country"
        = (if country = "" then none else some (Json.str country))
    ∧ pyGet (geoParams "Paris" "FR") "country" = some (Json.str "FR")
    ∧ pyGet (geoParams "Paris" "") "country" = none := by
  rcases eq_or_ne country "" with h | h
  · subst h
    exact ⟨rfl, rfl, rfl, rfl, rfl, rfl, rfl, rfl⟩
  · refine ⟨rfl, ?_, ?_, ?_, ?_, ?_, rfl, rfl⟩ <;>
      simp only [geoParams, if_neg h] <;> rfl

/-- C10: `get_current_weather` performs no range validation on its coordinate
arguments: for every pair of coordinates, in range or not, it issues the
forecast request with exactly those values as `latitude` and `longitude`
parameters (plus `current_weather=true` and `timezone=auto`), and its outcome
is the same function of the transported response as for any in-range pair. -/
theorem read_no_range_validation (lat lon : Rat) (script : List AttemptOutcome) :
    (get_current_weather lat lon script).requestUrl = weather_url
    ∧ (get_current_weather lat lon script).requestParams
        = [("latitude", Json.num lat), ("longitude", Json.num lon),
           ("current_weather", Json.str "true"), ("timezone", Json.str "auto")]
    ∧ (get_current_weather lat lon script).result
        = (get_current_weather 0 0 script).result :=
  ⟨rfl, rfl, rfl⟩

theorem projectLocation_errSpec (city country : String) (j : Json) :
    geoErrSpec city country (projectLocation j) := by
  cases j with
  | obj lf =>
    simp only [projectLocation]
    rcases pyGet lf "latitude" with _ | lat
    · trivial
    · rcases pyGet lf "longitude" with _ | lon
      · trivial
      · rcases pyGet lf "name" with _ | nm
        · trivial
        · trivial
  | null => trivial
  | bool b => trivial
  | num q => trivial
  | str s => trivial
  | arr xs => trivial

theorem handleGeoResponse_errSpec (city country : String) (r : HttpResponse) :
    geoErrSpec city country (handleGeoResponse city country r) := by
  unfold handleGeoResponse
  split
  · split
    · exact rfl
    · split
      · split
        · exact ⟨rfl, rfl, rfl⟩
        · split
          · split
            · exact projectLocation_errSpec city country _
            · trivial
            · trivial
          · exact ⟨rfl, rfl, rfl⟩
      · trivial
  · exact rfl

theorem handleWeatherResponse_errSpec (r : HttpResponse) :
    weatherErrSpec (handleWeatherResponse r) := by
  unfold handleWeatherResponse
  split
  · split
    · exact rfl
    · split
      · split
        · trivial
        · trivial
      · trivial
  · exact rfl

/-- C9 counterexample: a `LocationNotFoundError` raised by `get_coordinates`
carries no URL (and no status code): the claim that every structured error,
including LocationNotFound, carries the URL of the failed request is false. -/
theorem location_not_found_lacks_url_counterexample :
    (get_coordinates "Atlantis" "XX"
        [AttemptOutcome.response ⟨200, "OK",
          "https://geocoding-api.open-meteo.com/v1/search?name=Atlantis",
          some (Json.obj [("results", Json.arr [])])⟩]).result
      = GeoResult.locationNotFound
          ⟨"Weather location not found: Atlantis, XX", none, none⟩
    ∧ (locationNotFoundError "Atlantis, XX").url = none
    ∧ (locationNotFoundError "Atlantis, XX").status_code = none :=
  ⟨rfl, rfl, rfl⟩

/-- C9 amended: every structured error raised by `get_coordinates` or
`get_current_weather` carries a message, an optional status code and an
optional URL; plain `WeatherAPIError`s always carry the URL of the failed
request, while `LocationNotFoundError`s carry the city and country in their
message but no status code and no URL. -/
theorem structured_errors_carry_fields :
    (∀ city country script,
      geoErrSpec city country (get_coordinates city country script).result)
    ∧ (∀ (lat lon : Rat) script,
      weatherErrSpec (get_current_weather lat lon script).result) := by
  constructor
  · intro city country script
    rcases ho : (sessionGet script).2 with r | _ | _
    · simpa [get_coordinates, ho] using handleGeoResponse_errSpec city country r
    · simp [get_coordinates, ho, geoErrSpec]
    · simp [get_coordinates, ho, geoErrSpec]
  · intro lat lon script
    rcases ho : (sessionGet script).2 with r | _ | _
    · simpa [get_current_weather, ho] using handleWeatherResponse_errSpec r
    · simp [get_current_weather, ho, weatherErrSpec]
    · simp [get_current_weather, ho, weatherErrSpec]
